import Mathlib

/-!
Verification of the Vendure repository fragments: the job-query GraphQL
schema, the `VendurePlugin` decorator and its metadata surface, the
custom-field configuration model, and the worker module.  Each TypeScript
definition from the sources is embedded shallowly as a Lean definition;
the theorems settle the specification claims about them.
-/

namespace Vendure

/-! ## GraphQL schema embedding

The job schema (`type Query`, `enum JobState`, `input JobListInput`,
`type JobInfo`) is an SDL document; we embed its AST directly. -/

/-- A GraphQL type reference: a named type, a list type, or a non-null
wrapper.  A reference without the `nonNull` wrapper is nullable. -/
inductive GQLType where
  | named : String → GQLType
  | listOf : GQLType → GQLType
  | nonNull : GQLType → GQLType
deriving DecidableEq, Repr

/-- Whether a GraphQL type reference is non-null at the top level. -/
def GQLType.isNonNull : GQLType → Bool
  | .nonNull _ => true
  | _ => false

/-- An argument (or input-object field) declaration: `name: Type`. -/
structure InputValueDef where
  name : String
  type : GQLType
deriving DecidableEq, Repr

/-- An output field declaration: `name(args): Type`. -/
structure FieldDef where
  name : String
  args : List InputValueDef
  type : GQLType
deriving DecidableEq, Repr

/-- A top-level SDL type definition. -/
inductive TypeDef where
  | objectType : String → List FieldDef → TypeDef
  | enumType : String → List String → TypeDef
  | inputType : String → List InputValueDef → TypeDef
deriving DecidableEq, Repr

/-- The job GraphQL schema document, transcribed definition by definition
from the SDL source (`type Query`, `enum JobState`, `input JobListInput`,
`type JobInfo`, in source order). -/
def jobSchema : List TypeDef :=
  [ .objectType "Query"
      [ ⟨"job", [⟨"jobId", .nonNull (.named "String")⟩], .named "JobInfo"⟩,
        ⟨"jobs", [⟨"input", .named "JobListInput"⟩],
          .nonNull (.listOf (.nonNull (.named "JobInfo")))⟩ ],
    .enumType "JobState" ["PENDING", "RUNNING", "COMPLETED", "FAILED"],
    .inputType "JobListInput"
      [ ⟨"state", .named "JobState"⟩,
        ⟨"ids", .listOf (.nonNull (.named "String"))⟩ ],
    .objectType "JobInfo"
      [ ⟨"id", [], .nonNull (.named "String")⟩,
        ⟨"name", [], .nonNull (.named "String")⟩,
        ⟨"state", [], .nonNull (.named "JobState")⟩,
        ⟨"progress", [], .nonNull (.named "Float")⟩,
        ⟨"result", [], .named "JSON"⟩,
        ⟨"started", [], .named "DateTime"⟩,
        ⟨"ended", [], .named "DateTime"⟩,
        ⟨"duration", [], .named "Int"⟩ ] ]

/-- The object-type definitions of a schema, as (name, fields) pairs. -/
def objectTypes (s : List TypeDef) : List (String × List FieldDef) :=
  s.filterMap fun d =>
    match d with
    | .objectType n fs => some (n, fs)
    | _ => none

/-- The enum definitions of a schema, as (name, members) pairs. -/
def enumTypes (s : List TypeDef) : List (String × List String) :=
  s.filterMap fun d =>
    match d with
    | .enumType n vs => some (n, vs)
    | _ => none

/-- The input-object definitions of a schema, as (name, fields) pairs. -/
def inputTypes (s : List TypeDef) : List (String × List InputValueDef) :=
  s.filterMap fun d =>
    match d with
    | .inputType n fs => some (n, fs)
    | _ => none

/-- The fields of the object type with the given name, if defined. -/
def fieldsOf (s : List TypeDef) (n : String) : Option (List FieldDef) :=
  (objectTypes s).lookup n

/-- The declared type of a field of an object type. -/
def fieldType (s : List TypeDef) (tyName fieldName : String) : Option GQLType :=
  (fieldsOf s tyName).bind fun fs =>
    (fs.find? (fun f => f.name = fieldName)).map FieldDef.type

/-! ## Plugin metadata surface (`vendure-plugin.ts`)

`Type<any>` values, Nest providers and module references are JavaScript
object references; we model them by identity. -/

/-- A JavaScript class/object reference (a `Type<any>`, provider or
module), modelled by an identifying name. -/
structure JSRef where
  name : String
deriving DecidableEq, Repr

/-- A JavaScript `Promise<α>`, modelled by the value it resolves to. -/
structure Promise (α : Type) where
  value : α

/-- A parsed GraphQL document (`DocumentNode` from the `graphql`
package), modelled by its source text. -/
structure DocumentNode where
  body : String
deriving DecidableEq, Repr

/-- Modelled from the spec: the `VendureConfig` object
(`src/packages/core/src/config/vendure-config.ts` is not among the
provided sources); treated as an abstract configuration record, here in
its `Required<VendureConfig>` form. -/
structure VendureConfigRequired where
  entries : List (String × JSRef)

/-- `APIExtensionDefinition`: an optional schema document and a required
array of resolver classes. -/
structure APIExtensionDefinition where
  schema : Option DocumentNode
  resolvers : List JSRef

/-- `PluginConfigurationFn`: receives a `Required<VendureConfig>` and
returns a `Required<VendureConfig>` or a promise of one. -/
def PluginConfigurationFn : Type :=
  VendureConfigRequired → VendureConfigRequired ⊕ Promise VendureConfigRequired

/-- Nest `ModuleMetadata` (from `@nestjs/common/interfaces`): the four
optional module properties `imports`, `controllers`, `providers`,
`exports`. -/
structure ModuleMetadata where
  imports : Option (List JSRef)
  controllers : Option (List JSRef)
  providers : Option (List JSRef)
  exports : Option (List JSRef)

/-- `VendurePluginMetadata`: extends Nest `ModuleMetadata` with the five
Vendure-specific optional properties. -/
structure VendurePluginMetadata extends ModuleMetadata where
  configuration : Option PluginConfigurationFn
  shopApiExtensions : Option APIExtensionDefinition
  adminApiExtensions : Option APIExtensionDefinition
  workers : Option (List JSRef)
  entities : Option (List JSRef)

/-- A value stored under a metadata key: one of the possible property
values of a `VendurePluginMetadata` object. -/
inductive MetaValue where
  | refs : List JSRef → MetaValue
  | apiExt : APIExtensionDefinition → MetaValue
  | configFn : PluginConfigurationFn → MetaValue

/-- JavaScript property access `pluginMetadata[property]` on a
`VendurePluginMetadata` object: `none` models an absent (or
null/undefined) property, which is exactly what the source's
`!= null` test and `pick`'s `hasOwnProperty` test reject. -/
def VendurePluginMetadata.getProp (m : VendurePluginMetadata) :
    String → Option MetaValue
  | "imports" => m.imports.map .refs
  | "controllers" => m.controllers.map .refs
  | "providers" => m.providers.map .refs
  | "exports" => m.exports.map .refs
  | "configuration" => m.configuration.map .configFn
  | "shopApiExtensions" => m.shopApiExtensions.map .apiExt
  | "adminApiExtensions" => m.adminApiExtensions.map .apiExt
  | "workers" => m.workers.map .refs
  | "entities" => m.entities.map .refs
  | _ => none

/-- Modelled from the spec: `Object.values(PLUGIN_METADATA)` from
`./plugin-metadata` (not among the provided sources) — the five
Vendure-specific metadata keys. -/
def PLUGIN_METADATA : List String :=
  ["configuration", "shopApiExtensions", "adminApiExtensions", "workers", "entities"]

/-- `Object.values(METADATA)` from `@nestjs/common/constants`: the Nest
module metadata keys. -/
def NEST_METADATA : List String :=
  ["modules", "imports", "controllers", "providers", "exports"]

/-- Modelled from the spec: `pick` from `@vendure/common/lib/pick` (not
among the provided sources) — returns the object holding exactly the
requested properties that exist on the input, here as an association
list in key-request order. -/
def pick (m : VendurePluginMetadata) (props : List String) :
    List (String × MetaValue) :=
  props.filterMap fun k => (m.getProp k).map fun v => (k, v)

/-! ## Custom-field configuration model (`shared-types.ts`, custom-field config) -/

/-- `CustomFieldType` from `shared-types.ts`: the six custom field data
types. -/
inductive CustomFieldType where
  | string
  | localeString
  | int
  | float
  | boolean
  | datetime
deriving DecidableEq, Repr

/-- The JavaScript `number` type, modelled abstractly by its 64-bit
IEEE-754 pattern (never computed on here). -/
structure JSNumber where
  bits : Nat
deriving DecidableEq, Repr

/-- The JavaScript `Date` type, modelled by its epoch milliseconds. -/
structure JSDate where
  ms : Int
deriving DecidableEq, Repr

/-- `LocalizedString` from the generated GraphQL types: a language code
with a value (the `LanguageCode` enum is modelled by its string code). -/
structure LocalizedString where
  languageCode : String
  value : String
deriving DecidableEq, Repr

/-- The result type of a custom-field `validate` function:
`string | LocalizedString[] | void`. -/
inductive ValidateResult where
  | str : String → ValidateResult
  | localized : List LocalizedString → ValidateResult
  | void : ValidateResult
deriving DecidableEq, Repr

/-- `DefaultValueType<T>`: the conditional type mapping each custom field
type to its value type — string/localeString to `string`, int/float to
`number`, boolean to `boolean`, datetime to `Date`. -/
def DefaultValueType : CustomFieldType → Type
  | .string => String
  | .localeString => String
  | .int => JSNumber
  | .float => JSNumber
  | .boolean => Bool
  | .datetime => JSDate

/-- An entry of the `options` array of a string custom field config. -/
structure StringFieldOption where
  value : String
  label : Option (List LocalizedString)

/-- Modelled from the spec: the generated `StringCustomFieldConfig`
GraphQL type (the generated-types module is not among the provided
sources) — the common properties `name`, `label?`, `description?` plus
the string-specific `pattern?` and `options?`. -/
structure GraphQLStringCustomFieldConfig where
  name : String
  label : Option (List LocalizedString)
  description : Option (List LocalizedString)
  pattern : Option String
  options : Option (List StringFieldOption)

/-- Modelled from the spec: the generated `LocaleStringCustomFieldConfig`
GraphQL type — the common properties plus `pattern?`. -/
structure GraphQLLocaleStringCustomFieldConfig where
  name : String
  label : Option (List LocalizedString)
  description : Option (List LocalizedString)
  pattern : Option String

/-- Modelled from the spec: the generated `IntCustomFieldConfig` GraphQL
type — the common properties plus numeric `min?`, `max?`, `step?`. -/
structure GraphQLIntCustomFieldConfig where
  name : String
  label : Option (List LocalizedString)
  description : Option (List LocalizedString)
  min : Option JSNumber
  max : Option JSNumber
  step : Option JSNumber

/-- Modelled from the spec: the generated `FloatCustomFieldConfig`
GraphQL type — the common properties plus numeric `min?`, `max?`,
`step?`. -/
structure GraphQLFloatCustomFieldConfig where
  name : String
  label : Option (List LocalizedString)
  description : Option (List LocalizedString)
  min : Option JSNumber
  max : Option JSNumber
  step : Option JSNumber

/-- Modelled from the spec: the generated `BooleanCustomFieldConfig`
GraphQL type — just the common properties. -/
structure GraphQLBooleanCustomFieldConfig where
  name : String
  label : Option (List LocalizedString)
  description : Option (List LocalizedString)

/-- Modelled from the spec: the generated `DateTimeCustomFieldConfig`
GraphQL type — the common properties plus string-valued `min?`, `max?`,
`step?`. -/
structure GraphQLDateTimeCustomFieldConfig where
  name : String
  label : Option (List LocalizedString)
  description : Option (List LocalizedString)
  min : Option String
  max : Option String
  step : Option String

/-- `TypedCustomFieldConfig<T, C>`:
`Omit<C, '__typename'> & { type: T; public?; defaultValue?; nullable?;
validate? }`.  The discriminant property `type : T` is a singleton fixed
by the index `T` and is carried by the index itself. -/
structure TypedCustomFieldConfig (T : CustomFieldType) (C : Type) where
  base : C
  public : Option Bool
  defaultValue : Option (DefaultValueType T)
  nullable : Option Bool
  validate : Option (DefaultValueType T → ValidateResult)

/-- `StringCustomFieldConfig`. -/
def StringCustomFieldConfig : Type :=
  TypedCustomFieldConfig .string GraphQLStringCustomFieldConfig

/-- `LocaleStringCustomFieldConfig`. -/
def LocaleStringCustomFieldConfig : Type :=
  TypedCustomFieldConfig .localeString GraphQLLocaleStringCustomFieldConfig

/-- `IntCustomFieldConfig`. -/
def IntCustomFieldConfig : Type :=
  TypedCustomFieldConfig .int GraphQLIntCustomFieldConfig

/-- `FloatCustomFieldConfig`. -/
def FloatCustomFieldConfig : Type :=
  TypedCustomFieldConfig .float GraphQLFloatCustomFieldConfig

/-- `BooleanCustomFieldConfig`. -/
def BooleanCustomFieldConfig : Type :=
  TypedCustomFieldConfig .boolean GraphQLBooleanCustomFieldConfig

/-- `DateTimeCustomFieldConfig`. -/
def DateTimeCustomFieldConfig : Type :=
  TypedCustomFieldConfig .datetime GraphQLDateTimeCustomFieldConfig

/-- `CustomFieldConfig`: the union of the six per-type configurations,
tagged by the field type discriminant. -/
inductive CustomFieldConfig where
  | string : StringCustomFieldConfig → CustomFieldConfig
  | localeString : LocaleStringCustomFieldConfig → CustomFieldConfig
  | int : IntCustomFieldConfig → CustomFieldConfig
  | float : FloatCustomFieldConfig → CustomFieldConfig
  | boolean : BooleanCustomFieldConfig → CustomFieldConfig
  | datetime : DateTimeCustomFieldConfig → CustomFieldConfig

/-- The `CustomFields` interface: twelve optional entity keys, each an
array of `CustomFieldConfig`. -/
structure CustomFields where
  Address : Option (List CustomFieldConfig)
  Collection : Option (List CustomFieldConfig)
  Customer : Option (List CustomFieldConfig)
  Facet : Option (List CustomFieldConfig)
  FacetValue : Option (List CustomFieldConfig)
  GlobalSettings : Option (List CustomFieldConfig)
  OrderLine : Option (List CustomFieldConfig)
  Product : Option (List CustomFieldConfig)
  ProductOption : Option (List CustomFieldConfig)
  ProductOptionGroup : Option (List CustomFieldConfig)
  ProductVariant : Option (List CustomFieldConfig)
  User : Option (List CustomFieldConfig)

/-! ## Plugin lifecycle interfaces (`vendure-plugin.ts`) -/

/-- `OnVendureBootstrap`: logic to run when the server is initialized. -/
structure OnVendureBootstrap where
  onVendureBootstrap : Unit → Unit ⊕ Promise Unit

/-- `OnVendureWorkerBootstrap`: logic to run when the worker is
initialized. -/
structure OnVendureWorkerBootstrap where
  onVendureWorkerBootstrap : Unit → Unit ⊕ Promise Unit

/-- `OnVendureClose`: logic to run before the server is closed. -/
structure OnVendureClose where
  onVendureClose : Unit → Unit ⊕ Promise Unit

/-- `OnVendureWorkerClose`: logic to run before the worker is closed. -/
structure OnVendureWorkerClose where
  onVendureWorkerClose : Unit → Unit ⊕ Promise Unit

/-- `PluginLifecycleMethods`: the intersection of the four lifecycle
interfaces, i.e. the record carrying all four methods. -/
structure PluginLifecycleMethods where
  onVendureBootstrap : Unit → Unit ⊕ Promise Unit
  onVendureWorkerBootstrap : Unit → Unit ⊕ Promise Unit
  onVendureClose : Unit → Unit ⊕ Promise Unit
  onVendureWorkerClose : Unit → Unit ⊕ Promise Unit

/-! ## Worker module (`worker.module.ts`) -/

/-- Modelled from the spec: the external `WorkerMonitor`
(`./worker-monitor` is not among the provided sources); its
`waitForOpenTasksToComplete` method produces a value of an abstract
result type `ρ`. -/
structure WorkerMonitor (ρ : Type) where
  waitForOpenTasksToComplete : Unit → ρ

/-- The `WorkerModule` class: its only state is the injected monitor. -/
structure WorkerModule (ρ : Type) where
  monitor : WorkerMonitor ρ

/-- `WorkerModule.onModuleDestroy`:
`return this.monitor.waitForOpenTasksToComplete();` — the returned value
paired with the (unchanged) module state. -/
def WorkerModule.onModuleDestroy {ρ : Type} (self : WorkerModule ρ) :
    ρ × WorkerModule ρ :=
  (self.monitor.waitForOpenTasksToComplete (), self)

/-- The spec-side description of worker shutdown: waiting for open tasks
is fully delegated to the external monitor. -/
def delegatedWaitSpec {ρ : Type} (self : WorkerModule ρ) : ρ :=
  self.monitor.waitForOpenTasksToComplete ()

/-- The info message logged by `onApplicationShutdown` for a signal. -/
def workerShutdownMessage (signal : String) : String :=
  "Worker Received shutdown signal:" ++ signal

/-- `WorkerModule.onApplicationShutdown(signal?)`: if the signal is
truthy (present and non-empty), log an info message; the logger is
modelled as the list of logged messages, returned next to the module
state. -/
def WorkerModule.onApplicationShutdown {ρ : Type} (self : WorkerModule ρ)
    (signal : Option String) (log : List String) :
    List String × WorkerModule ρ :=
  match signal with
  | some s => if s = "" then (log, self) else (log ++ [workerShutdownMessage s], self)
  | none => (log, self)

/-- The decoration state of a target class: its `Reflect` metadata
entries (later definitions shadow earlier ones, as in
`Reflect.defineMetadata`), and the argument of the Nest `Module`
decorator once it has been applied. -/
structure Target where
  reflectMetadata : List (String × MetaValue)
  nestModuleMetadata : Option (List (String × MetaValue))

/-- `Reflect.defineMetadata(key, value, target)`. -/
def defineMetadata (key : String) (v : MetaValue) (t : Target) : Target :=
  { t with reflectMetadata := (key, v) :: t.reflectMetadata }

/-- `Reflect.getMetadata(key, target)`: the most recently defined value. -/
def getMetadata (key : String) (t : Target) : Option MetaValue :=
  t.reflectMetadata.lookup key

/-- The Nest `Module` decorator (from `@nestjs/common`), modelled as
recording its metadata argument on the target class. -/
def ModuleDecorator (meta : List (String × MetaValue)) (t : Target) : Target :=
  { t with nestModuleMetadata := some meta }

/-- The `VendurePlugin` decorator: for each `PLUGIN_METADATA` key whose
value on `pluginMetadata` is non-null, define that Reflect metadata
entry on the target; then apply the Nest `Module` decorator to the
properties picked by the Nest `METADATA` keys. -/
def VendurePlugin (pluginMetadata : VendurePluginMetadata) : Target → Target :=
  fun target =>
    let decorated := PLUGIN_METADATA.foldl
      (fun t property =>
        match pluginMetadata.getProp property with
        | some v => defineMetadata property v t
        | none => t)
      target
    let nestModuleMetadata := pick pluginMetadata NEST_METADATA
    ModuleDecorator nestModuleMetadata decorated

end Vendure

namespace Vendure

/-- C1: The job GraphQL schema defines exactly two query fields —
`Query.job` taking a required `String` argument `jobId` and `Query.jobs`
taking an optional `JobListInput` argument — exactly one object type
besides `Query`, namely `JobInfo` with precisely the fields `id`, `name`,
`state`, `progress`, `result`, `started`, `ended`, `duration` in that
order, and a single enum `JobState` whose members are precisely
`PENDING`, `RUNNING`, `COMPLETED`, `FAILED` in that order. -/
theorem job_schema_shape :
    fieldsOf jobSchema "Query" =
      some [ ⟨"job", [⟨"jobId", .nonNull (.named "String")⟩], .named "JobInfo"⟩,
             ⟨"jobs", [⟨"input", .named "JobListInput"⟩],
               .nonNull (.listOf (.nonNull (.named "JobInfo")))⟩ ]
    ∧ (objectTypes jobSchema).map Prod.fst = ["Query", "JobInfo"]
    ∧ ((fieldsOf jobSchema "JobInfo").map (List.map FieldDef.name)) =
        some ["id", "name", "state", "progress", "result", "started", "ended", "duration"]
    ∧ enumTypes jobSchema =
        [("JobState", ["PENDING", "RUNNING", "COMPLETED", "FAILED"])] := by
  decide

/-- C9: `Query.job` returns a nullable `JobInfo` while `Query.jobs`
returns a non-null list of non-null `JobInfo`; within `JobInfo` the
fields `result`, `started`, `ended`, `duration` are nullable while `id`,
`name`, `state`, `progress` are non-null; and both fields of
`JobListInput` (`state`, `ids`) are nullable, hence optional. -/
theorem job_schema_nullability :
    fieldType jobSchema "Query" "job" = some (.named "JobInfo")
    ∧ fieldType jobSchema "Query" "jobs" =
        some (.nonNull (.listOf (.nonNull (.named "JobInfo"))))
    ∧ ((fieldsOf jobSchema "JobInfo").map
        (List.filterMap fun f => if f.type.isNonNull then none else some f.name)) =
        some ["result", "started", "ended", "duration"]
    ∧ ((fieldsOf jobSchema "JobInfo").map
        (List.filterMap fun f => if f.type.isNonNull then some f.name else none)) =
        some ["id", "name", "state", "progress"]
    ∧ (inputTypes jobSchema).lookup "JobListInput" =
        some [⟨"state", .named "JobState"⟩, ⟨"ids", .listOf (.nonNull (.named "String"))⟩]
    ∧ ((inputTypes jobSchema).lookup "JobListInput").map
        (List.all · (fun f => !f.type.isNonNull)) = some true := by
  decide

/-- C2: Applying the decorator returned by `VendurePlugin(pluginMetadata)`
to a target defines a Reflect metadata entry on the target under each
`PLUGIN_METADATA` key whose value in `pluginMetadata` is non-null (and
non-undefined), and invokes the Nest `Module` decorator on the same
target with the picked Nest metadata. -/
theorem vendure_plugin_registers_metadata (m : VendurePluginMetadata) (t : Target)
    (key : String) (v : MetaValue)
    (hkey : key ∈ PLUGIN_METADATA) (hval : m.getProp key = some v) :
    getMetadata key (VendurePlugin m t) = some v
    ∧ (VendurePlugin m t).nestModuleMetadata = some (pick m NEST_METADATA) := by
  obtain ⟨⟨imp, ctr, prv, exp⟩, cfg, shop, admin, wrk, ent⟩ := m
  refine ⟨?_, rfl⟩
  simp only [PLUGIN_METADATA, List.mem_cons, List.not_mem_nil, or_false] at hkey
  rcases hkey with rfl | rfl | rfl | rfl | rfl
  · cases cfg with
    | none => simp [VendurePluginMetadata.getProp] at hval
    | some a =>
        simp only [VendurePluginMetadata.getProp, Option.map_some',
          Option.some.injEq] at hval
        subst hval
        cases shop <;> cases admin <;> cases wrk <;> cases ent <;> rfl
  · cases shop with
    | none => simp [VendurePluginMetadata.getProp] at hval
    | some a =>
        simp only [VendurePluginMetadata.getProp, Option.map_some',
          Option.some.injEq] at hval
        subst hval
        cases cfg <;> cases admin <;> cases wrk <;> cases ent <;> rfl
  · cases admin with
    | none => simp [VendurePluginMetadata.getProp] at hval
    | some a =>
        simp only [VendurePluginMetadata.getProp, Option.map_some',
          Option.some.injEq] at hval
        subst hval
        cases cfg <;> cases shop <;> cases wrk <;> cases ent <;> rfl
  · cases wrk with
    | none => simp [VendurePluginMetadata.getProp] at hval
    | some a =>
        simp only [VendurePluginMetadata.getProp, Option.map_some',
          Option.some.injEq] at hval
        subst hval
        cases cfg <;> cases shop <;> cases admin <;> cases ent <;> rfl
  · cases ent with
    | none => simp [VendurePluginMetadata.getProp] at hval
    | some a =>
        simp only [VendurePluginMetadata.getProp, Option.map_some',
          Option.some.injEq] at hval
        subst hval
        cases cfg <;> cases shop <;> cases admin <;> cases wrk <;> rfl

/-- C2 witness: concrete application of the decorator theorem. -/
theorem vendure_plugin_registers_metadata_witness :
    getMetadata "workers"
      (VendurePlugin
        { imports := none, controllers := none, providers := none, exports := none,
          configuration := none, shopApiExtensions := none, adminApiExtensions := none,
          workers := some [⟨"TaskController"⟩], entities := none }
        ⟨[], none⟩) = some (.refs [⟨"TaskController"⟩]) := by
  exact (vendure_plugin_registers_metadata
    { imports := none, controllers := none, providers := none, exports := none,
      configuration := none, shopApiExtensions := none, adminApiExtensions := none,
      workers := some [⟨"TaskController"⟩], entities := none }
    ⟨[], none⟩ "workers" (.refs [⟨"TaskController"⟩]) (by decide) rfl).1

/-- C8: The argument `VendurePlugin` passes to the Nest `Module` decorator
contains only properties whose keys are Nest `METADATA` keys and never a
Vendure-specific key (`configuration`, `shopApiExtensions`,
`adminApiExtensions`, `workers`, `entities`), so varying the
Vendure-specific properties leaves the Nest module definition
unchanged. -/
theorem vendure_plugin_nest_arg_frame (base : ModuleMetadata) (t : Target)
    (c₁ c₂ : Option PluginConfigurationFn)
    (s₁ s₂ a₁ a₂ : Option APIExtensionDefinition)
    (w₁ w₂ e₁ e₂ : Option (List JSRef)) :
    (VendurePlugin ⟨base, c₁, s₁, a₁, w₁, e₁⟩ t).nestModuleMetadata
      = (VendurePlugin ⟨base, c₂, s₂, a₂, w₂, e₂⟩ t).nestModuleMetadata
    ∧ (((VendurePlugin ⟨base, c₁, s₁, a₁, w₁, e₁⟩ t).nestModuleMetadata.getD []).all
        fun kv => NEST_METADATA.contains kv.1 && !PLUGIN_METADATA.contains kv.1) = true := by
  obtain ⟨imp, ctr, prv, exp⟩ := base
  cases imp <;> cases ctr <;> cases prv <;> cases exp <;> exact ⟨rfl, rfl⟩

/-- C3: The plugin registration metadata surface is exactly Nest
`ModuleMetadata` plus the five Vendure-specific optional properties
(`configuration`, `shopApiExtensions`, `adminApiExtensions`, `workers`,
`entities`); `APIExtensionDefinition` is exactly an optional schema
document with a required resolver-class array; and
`PluginConfigurationFn` receives a `Required<VendureConfig>` and returns
one or a promise of one. -/
theorem plugin_metadata_surface :
    Nonempty (VendurePluginMetadata ≃
      ModuleMetadata × Option PluginConfigurationFn × Option APIExtensionDefinition
        × Option APIExtensionDefinition × Option (List JSRef) × Option (List JSRef))
    ∧ Nonempty (APIExtensionDefinition ≃ Option DocumentNode × List JSRef)
    ∧ PluginConfigurationFn =
        (VendureConfigRequired → VendureConfigRequired ⊕ Promise VendureConfigRequired) := by
  refine ⟨⟨⟨fun m => (m.toModuleMetadata, m.configuration, m.shopApiExtensions,
      m.adminApiExtensions, m.workers, m.entities),
    fun x => ⟨x.1, x.2.1, x.2.2.1, x.2.2.2.1, x.2.2.2.2.1, x.2.2.2.2.2⟩,
    fun m => rfl, fun x => rfl⟩⟩,
    ⟨⟨fun a => (a.schema, a.resolvers), fun x => ⟨x.1, x.2⟩,
      fun a => rfl, fun x => rfl⟩⟩, rfl⟩

/-- C4: Custom field configurations are typed over exactly the six
custom field types `string`, `localeString`, `int`, `float`, `boolean`
and `datetime`; the `defaultValue` type is determined by the field type
via the mapping string/localeString to `string`, int/float to `number`,
boolean to `boolean`, datetime to `Date`; and each configuration may
carry an optional `validate` function over exactly that value type. -/
theorem custom_field_typing :
    (∀ t : CustomFieldType, t = .string ∨ t = .localeString ∨ t = .int
      ∨ t = .float ∨ t = .boolean ∨ t = .datetime)
    ∧ DefaultValueType .string = String
    ∧ DefaultValueType .localeString = String
    ∧ DefaultValueType .int = JSNumber
    ∧ DefaultValueType .float = JSNumber
    ∧ DefaultValueType .boolean = Bool
    ∧ DefaultValueType .datetime = JSDate
    ∧ ∀ (T : CustomFieldType) (C : Type),
        Nonempty (TypedCustomFieldConfig T C ≃
          C × Option Bool × Option (DefaultValueType T) × Option Bool
            × Option (DefaultValueType T → ValidateResult)) := by
  refine ⟨fun t => ?_, rfl, rfl, rfl, rfl, rfl, rfl, fun T C => ⟨⟨
    fun c => (c.base, c.public, c.defaultValue, c.nullable, c.validate),
    fun x => ⟨x.1, x.2.1, x.2.2.1, x.2.2.2.1, x.2.2.2.2⟩,
    fun c => rfl, fun x => rfl⟩⟩⟩
  cases t <;> simp

/-- C5: The plugin lifecycle surface exposes exactly four host-invoked
hooks, one per interface (`onVendureBootstrap`, `onVendureWorkerBootstrap`,
`onVendureClose`, `onVendureWorkerClose`); each hook returns void or a
promise of void; and `PluginLifecycleMethods` is exactly the intersection
of the four interfaces. -/
theorem plugin_lifecycle_surface :
    Nonempty (PluginLifecycleMethods ≃
      OnVendureBootstrap × OnVendureWorkerBootstrap × OnVendureClose × OnVendureWorkerClose)
    ∧ Nonempty (OnVendureBootstrap ≃ (Unit → Unit ⊕ Promise Unit))
    ∧ Nonempty (OnVendureWorkerBootstrap ≃ (Unit → Unit ⊕ Promise Unit))
    ∧ Nonempty (OnVendureClose ≃ (Unit → Unit ⊕ Promise Unit))
    ∧ Nonempty (OnVendureWorkerClose ≃ (Unit → Unit ⊕ Promise Unit))
    ∧ ∀ (p : PluginLifecycleMethods) (u : Unit),
        ((p.onVendureBootstrap u = .inl ()) ∨ ∃ q, p.onVendureBootstrap u = .inr q)
        ∧ ((p.onVendureWorkerBootstrap u = .inl ())
            ∨ ∃ q, p.onVendureWorkerBootstrap u = .inr q)
        ∧ ((p.onVendureClose u = .inl ()) ∨ ∃ q, p.onVendureClose u = .inr q)
        ∧ ((p.onVendureWorkerClose u = .inl ())
            ∨ ∃ q, p.onVendureWorkerClose u = .inr q) := by
  refine ⟨⟨⟨fun p => (⟨p.onVendureBootstrap⟩, ⟨p.onVendureWorkerBootstrap⟩,
      ⟨p.onVendureClose⟩, ⟨p.onVendureWorkerClose⟩),
    fun x => ⟨x.1.onVendureBootstrap, x.2.1.onVendureWorkerBootstrap,
      x.2.2.1.onVendureClose, x.2.2.2.onVendureWorkerClose⟩,
    fun p => rfl, fun x => rfl⟩⟩,
    ⟨⟨fun i => i.onVendureBootstrap, fun f => ⟨f⟩, fun i => rfl, fun f => rfl⟩⟩,
    ⟨⟨fun i => i.onVendureWorkerBootstrap, fun f => ⟨f⟩, fun i => rfl, fun f => rfl⟩⟩,
    ⟨⟨fun i => i.onVendureClose, fun f => ⟨f⟩, fun i => rfl, fun f => rfl⟩⟩,
    ⟨⟨fun i => i.onVendureWorkerClose, fun f => ⟨f⟩, fun i => rfl, fun f => rfl⟩⟩,
    fun p u => ⟨?_, ?_, ?_, ?_⟩⟩
  · rcases h : p.onVendureBootstrap u with x | q
    · exact Or.inl rfl
    · exact Or.inr ⟨q, rfl⟩
  · rcases h : p.onVendureWorkerBootstrap u with x | q
    · exact Or.inl rfl
    · exact Or.inr ⟨q, rfl⟩
  · rcases h : p.onVendureClose u with x | q
    · exact Or.inl rfl
    · exact Or.inr ⟨q, rfl⟩
  · rcases h : p.onVendureWorkerClose u with x | q
    · exact Or.inl rfl
    · exact Or.inr ⟨q, rfl⟩

/-- C6: `WorkerModule.onModuleDestroy` returns exactly the value produced
by calling `waitForOpenTasksToComplete` on its injected `WorkerMonitor`,
and performs no state change of its own. -/
theorem on_module_destroy_delegates {ρ : Type} (self : WorkerModule ρ) :
    self.onModuleDestroy.1 = delegatedWaitSpec self
    ∧ self.onModuleDestroy.2 = self :=
  ⟨rfl, rfl⟩

/-- C7: The `CustomFields` interface has exactly the twelve optional
entity keys `Address`, `Collection`, `Customer`, `Facet`, `FacetValue`,
`GlobalSettings`, `OrderLine`, `Product`, `ProductOption`,
`ProductOptionGroup`, `ProductVariant`, `User`, each an array of
`CustomFieldConfig`, and `CustomFieldConfig` is exactly the union of the
six per-type configurations. -/
theorem custom_fields_surface :
    Nonempty (CustomFields ≃
      Option (List CustomFieldConfig) × Option (List CustomFieldConfig)
        × Option (List CustomFieldConfig) × Option (List CustomFieldConfig)
        × Option (List CustomFieldConfig) × Option (List CustomFieldConfig)
        × Option (List CustomFieldConfig) × Option (List CustomFieldConfig)
        × Option (List CustomFieldConfig) × Option (List CustomFieldConfig)
        × Option (List CustomFieldConfig) × Option (List CustomFieldConfig))
    ∧ Nonempty (CustomFieldConfig ≃
        StringCustomFieldConfig ⊕ LocaleStringCustomFieldConfig ⊕ IntCustomFieldConfig
          ⊕ FloatCustomFieldConfig ⊕ BooleanCustomFieldConfig
          ⊕ DateTimeCustomFieldConfig) := by
  constructor
  · exact ⟨⟨fun c => (c.Address, c.Collection, c.Customer, c.Facet, c.FacetValue,
      c.GlobalSettings, c.OrderLine, c.Product, c.ProductOption, c.ProductOptionGroup,
      c.ProductVariant, c.User),
    fun x => ⟨x.1, x.2.1, x.2.2.1, x.2.2.2.1, x.2.2.2.2.1, x.2.2.2.2.2.1,
      x.2.2.2.2.2.2.1, x.2.2.2.2.2.2.2.1, x.2.2.2.2.2.2.2.2.1, x.2.2.2.2.2.2.2.2.2.1,
      x.2.2.2.2.2.2.2.2.2.2.1, x.2.2.2.2.2.2.2.2.2.2.2⟩,
    fun c => rfl, fun x => rfl⟩⟩
  · refine ⟨⟨fun c => ?_, fun x => ?_, fun c => ?_, fun x => ?_⟩⟩
    · exact match c with
      | .string c => .inl c
      | .localeString c => .inr (.inl c)
      | .int c => .inr (.inr (.inl c))
      | .float c => .inr (.inr (.inr (.inl c)))
      | .boolean c => .inr (.inr (.inr (.inr (.inl c))))
      | .datetime c => .inr (.inr (.inr (.inr (.inr c))))
    · exact match x with
      | .inl c => .string c
      | .inr (.inl c) => .localeString c
      | .inr (.inr (.inl c)) => .int c
      | .inr (.inr (.inr (.inl c))) => .float c
      | .inr (.inr (.inr (.inr (.inl c)))) => .boolean c
      | .inr (.inr (.inr (.inr (.inr c)))) => .datetime c
    · cases c <;> rfl
    · rcases x with c | c | c | c | c | c <;> rfl

/-- C10: `WorkerModule.onApplicationShutdown` never modifies the module
or its monitor; it logs an info message containing the signal exactly
when a truthy (present, non-empty) signal is provided, and performs no
logging when the signal is absent or empty. -/
theorem on_application_shutdown_frame {ρ : Type} (self : WorkerModule ρ)
    (signal : Option String) (log : List String) :
    (self.onApplicationShutdown signal log).2 = self
    ∧ ((∃ s, signal = some s ∧ s ≠ ""
          ∧ (self.onApplicationShutdown signal log).1 = log ++ [workerShutdownMessage s]
          ∧ ∃ pre, workerShutdownMessage s = pre ++ s)
        ∨ ((signal = none ∨ signal = some "")
          ∧ (self.onApplicationShutdown signal log).1 = log)) := by
  cases signal with
  | none => exact ⟨rfl, Or.inr ⟨Or.inl rfl, rfl⟩⟩
  | some s =>
      by_cases h : s = ""
      · subst h
        exact ⟨rfl, Or.inr ⟨Or.inr rfl, rfl⟩⟩
      · refine ⟨?_, Or.inl ⟨s, rfl, h, ?_, ⟨"Worker Received shutdown signal:", rfl⟩⟩⟩ <;>
          simp [WorkerModule.onApplicationShutdown, h]

end Vendure
